import Mathlib

/-!
# Verification of the wati-sdk request/response and webhook core

Shallow embedding, in Lean 4, of the request pipeline and webhook core of the
go-wati SDK.  Every definition mirrors a function or type of the Go source:

* `WATIError`, `NewWATIError`, `WATIError.IsRetryable`  — error taxonomy
  (errors file, `NewWATIError` switch table and `IsRetryable`).
* `retryAttempts` / `DoRequest`                          — `Client.DoRequest`
  (client.go): rate limiting, retry loop with linear backoff, response
  handling.  External effects (the HTTP transport, the rate limiter, the
  cancellation signal) are supplied as oracles: the transport is a function
  from the attempt number to its result, the limiter outcome and the
  cancellation of each backoff wait are inputs.
* `Json`, the struct decoders and encoders, `ParseWebhookEvent`,
  `parseEventData`                                       — webhooks/types.go.
  JSON *text* parsing is abstracted: payloads arrive as `Option Json`
  (`none` = text that is not valid JSON); Go's `encoding/json` unmarshalling
  of a parsed value into a struct is modelled field by field (unknown keys
  ignored, `null` leaves the current value, type mismatches are errors).
  `float64` fields are modelled as exact rationals.
* `sha256`, `hmacSha256`, `ValidateSignature`            — webhooks/types.go
  signature validation; SHA-256 and HMAC are spelled out over byte lists.
* `StartWebhookServer`, `StopWebhookServer`              — webhooks service
  lifecycle; the `http.Server` shutdown outcome is an oracle.
* `WebhookRegistration.Validate`, `RegisterWebhookWithConfig`, `RotateToken`.
-/

namespace Wati

/-! ## Error taxonomy (errors file of package wati) -/

/-- Go `WATIError` struct: `{Code int, Message string, Type string}`.  The Go
field `Type` is rendered `ErrType` (`Type` is a Lean keyword). -/
structure WATIError where
  Code : Int
  Message : String
  ErrType : String
deriving DecidableEq

/-- Go `func (e *WATIError) IsRetryable() bool { return e.Code >= 500 || e.Code == 429 }` -/
def WATIError.IsRetryable (e : WATIError) : Bool :=
  decide (e.Code ≥ 500) || decide (e.Code = 429)

/-- Go `func NewWATIError(statusCode int, message string) *WATIError`: the switch
on the status code that fills the `Type` field. -/
def NewWATIError (statusCode : Int) (message : String) : WATIError :=
  let errorType : String :=
    if statusCode = 400 then "bad_request"
    else if statusCode = 401 then "authentication"
    else if statusCode = 403 then "authorization"
    else if statusCode = 404 then "not_found"
    else if statusCode = 405 then "method_not_allowed"
    else if statusCode = 429 then "rate_limit"
    else if statusCode = 500 then "server_error"
    else if statusCode ≥ 500 then "server_error"
    else if statusCode ≥ 400 then "client_error"
    else "unknown"
  ⟨statusCode, message, errorType⟩

/-- The fixed classification table as the specification states it (§3 of the
spec): 400→bad_request, 401→authentication, 403→authorization, 404→not_found,
405→method_not_allowed, 429→rate_limit, 500 and any other ≥500→server_error,
any other ≥400→client_error; remaining codes fall in the `unknown` bucket of
the category enum. -/
def classifyTable (c : Int) : String :=
  if c = 400 then "bad_request"
  else if c = 401 then "authentication"
  else if c = 403 then "authorization"
  else if c = 404 then "not_found"
  else if c = 405 then "method_not_allowed"
  else if c = 429 then "rate_limit"
  else if c = 500 then "server_error"
  else if c ≥ 500 then "server_error"
  else if c ≥ 400 then "client_error"
  else "unknown"

/-! ## JSON values

Payloads that have been through Go's JSON text parser are modelled as `Json`
values; a payload of invalid JSON text is `none` at the use sites.  Numbers
are exact rationals (`float64` round-trips losslessly through Go's encoder
for all finite values; NaN/Inf are not representable in JSON). -/

inductive Json where
  | null
  | bool (b : Bool)
  | num (q : Rat)
  | str (s : String)
  | arr (elems : List Json)
  | obj (fields : List (String × Json))

/-! ### Go `encoding/json` unmarshalling of a parsed value into a struct

`json.Unmarshal` into a struct processes the object's keys in order: an
unknown key is ignored, a known key decodes its value into the struct field
(a JSON `null` leaves the field unchanged, a type mismatch aborts with an
error).  A top-level `null` leaves the whole struct unchanged; any other
non-object aborts.  Exact-case key match is modelled (Go also accepts
case-insensitive matches; no claim depends on that fallback). -/

/-- Decode a JSON value into a `String` field whose current value is `cur`. -/
def asStrInto (cur : String) : Json → Except String String
  | .str s => .ok s
  | .null => .ok cur
  | _ => .error "cannot unmarshal into field of type string"

/-- Decode a JSON value into an `int64` field (error on non-integral numbers,
as Go errors on a fractional JSON number for an integer field). -/
def asIntInto (cur : Int) : Json → Except String Int
  | .num q => if q.den = 1 then .ok q.num else .error "cannot unmarshal into field of type int64"
  | .null => .ok cur
  | _ => .error "cannot unmarshal into field of type int64"

/-- Decode a JSON value into a `float64` field (modelled as `Rat`). -/
def asRatInto (cur : Rat) : Json → Except String Rat
  | .num q => .ok q
  | .null => .ok cur
  | _ => .error "cannot unmarshal into field of type float64"

/-- Decode a JSON value into a slice field: an array decodes element-wise
into fresh zero elements, `null` leaves the field. -/
def asListInto {α : Type} (decElem : Json → Except String α) (cur : List α) :
    Json → Except String (List α)
  | .arr xs => xs.mapM decElem
  | .null => .ok cur
  | _ => .error "cannot unmarshal into field of type slice"

/-- Decode a JSON value into a pointer-to-struct field (`Option` in the
model): JSON `null` sets the pointer to nil; otherwise the value is decoded
into the pointed-to struct (a fresh zero value when the pointer is nil). -/
def asOptInto {α : Type} (dec : α → Json → Except String α) (zero : α) (cur : Option α) :
    Json → Except String (Option α)
  | .null => .ok none
  | j => (dec (cur.getD zero) j).map some

/-- First updater registered for key `k` (struct field keys are distinct). -/
def findFieldDec {β : Type} : List (String × β) → String → Option β
  | [], _ => none
  | (k, d) :: rest, key => if k = key then some d else findFieldDec rest key

/-- Process an object's key/value pairs in order against a field table. -/
def decodeFields {α : Type} (table : List (String × (α → Json → Except String α))) :
    α → List (String × Json) → Except String α
  | cur, [] => .ok cur
  | cur, (k, v) :: rest =>
    match findFieldDec table k with
    | none => decodeFields table cur rest
    | some upd =>
      match upd cur v with
      | .error e => .error e
      | .ok cur' => decodeFields table cur' rest

/-- Go `json.Unmarshal` of a parsed JSON value into a struct value `cur`. -/
def decodeStruct {α : Type} (table : List (String × (α → Json → Except String α)))
    (cur : α) : Json → Except String α
  | .null => .ok cur
  | .obj fs => decodeFields table cur fs
  | _ => .error "cannot unmarshal into struct"

/-! ### Go `encoding/json` marshalling helpers (struct → JSON value)

`omitempty` omits `""`, nil pointers, and empty slices/maps. -/

/-- Decode a JSON value into a `map[string]interface{}` field.  Decoding in
this development always starts from the zero (empty) map, so the Go
behaviour of keeping pre-existing entries of a non-nil map is not
exercised. -/
def asMapInto (cur : List (String × Json)) : Json → Except String (List (String × Json))
  | .obj fs => .ok fs
  | .null => .ok cur
  | _ => .error "cannot unmarshal into field of type map"

/-! ## Webhook event model (webhooks/types.go)

The 13 `WebhookEventType` constants.  `WebhookEventType` is a string type in
the source; it is modelled as `String`. -/

def MessageReceived : String := "message_received"

def NewContactMessage : String := "new_contact_message"

def SessionMessageSent : String := "session_message_sent"

def TemplateMessageSent : String := "template_message_sent"

def MessageDelivered : String := "message_delivered"

def MessageRead : String := "message_read"

def MessageReplied : String := "message_replied"

def TemplateMessageFailed : String := "template_message_failed"

def ContactCreated : String := "contact_created"

def ContactUpdated : String := "contact_updated"

def ChatbotStarted : String := "chatbot_started"

def ChatbotStopped : String := "chatbot_stopped"

def ChatStatusChanged : String := "chat_status_changed"

/-! Payload structs.  Go field names are kept; a Go field named `Type` is
rendered `Type'` (keyword).  JSON tags and `omitempty` flags are carried by
the encoders/decoders below, in struct field order. -/

/-- Go `WebhookContactProfile {Name "name"; Avatar "avatar,omitempty"}` -/
structure WebhookContactProfile where
  Name : String
  Avatar : String
deriving DecidableEq

/-- Go `WebhookCustomParam {Name "name"; Value "value"}` -/
structure WebhookCustomParam where
  Name : String
  Value : String
deriving DecidableEq

/-- Go `WebhookPhoneNumber {Phone "phone"; Type "type,omitempty"}` -/
structure WebhookPhoneNumber where
  Phone : String
  Type' : String
deriving DecidableEq

/-- Go `WebhookEmail {Email "email"; Type "type,omitempty"}` -/
structure WebhookEmail where
  Email : String
  Type' : String
deriving DecidableEq

/-- Go `WebhookURL {URL "url"; Type "type,omitempty"}` -/
structure WebhookURL where
  URL : String
  Type' : String
deriving DecidableEq

/-- Go `WebhookAddress`: seven string fields, all `omitempty`. -/
structure WebhookAddress where
  Street : String
  City : String
  State : String
  Zip : String
  Country : String
  CountryCode : String
  Type' : String
deriving DecidableEq

/-- Go `WebhookButtonReply {ID "id"; Title "title"}` -/
structure WebhookButtonReply where
  ID : String
  Title : String
deriving DecidableEq

/-- Go `WebhookListReply {ID "id"; Title "title"; Description "description,omitempty"}` -/
structure WebhookListReply where
  ID : String
  Title : String
  Description : String
deriving DecidableEq

/-- Go `WebhookMediaInfo {ID; FileName; MimeType; Size int64; URL; Caption omitempty}` -/
structure WebhookMediaInfo where
  ID : String
  FileName : String
  MimeType : String
  Size : Int
  URL : String
  Caption : String
deriving DecidableEq

/-- Go `WebhookLocationInfo {Latitude float64; Longitude float64; Name omitempty; Address omitempty}` -/
structure WebhookLocationInfo where
  Latitude : Rat
  Longitude : Rat
  Name : String
  Address : String
deriving DecidableEq

/-- Go `WebhookContactInfo`: name plus optional phone/email/url/address lists,
organization and birthday. -/
structure WebhookContactInfo where
  Name : String
  PhoneNumbers : List WebhookPhoneNumber
  Emails : List WebhookEmail
  URLs : List WebhookURL
  Addresses : List WebhookAddress
  Organization : String
  Birthday : String
deriving DecidableEq

/-- Go `WebhookInteractiveInfo {Type "type"; ButtonReply omitempty; ListReply omitempty}` -/
structure WebhookInteractiveInfo where
  Type' : String
  ButtonReply : Option WebhookButtonReply
  ListReply : Option WebhookListReply
deriving DecidableEq

/-- Go `MessageReceivedData` (dispatch target of message_received /
new_contact_message). -/
structure MessageReceivedData where
  MessageID : String
  From : String
  To : String
  MessageType : String
  Text : String
  Media : Option WebhookMediaInfo
  Location : Option WebhookLocationInfo
  Contact : Option WebhookContactInfo
  Interactive : Option WebhookInteractiveInfo
  Timestamp : String
  ContactProfile : Option WebhookContactProfile
deriving DecidableEq

/-- Go `MessageSentData` (session_message_sent / template_message_sent /
template_message_failed). -/
structure MessageSentData where
  MessageID : String
  From : String
  To : String
  MessageType : String
  TemplateName : String
  Status : String
  Timestamp : String
  ErrorCode : String
  ErrorMessage : String
  ContactProfile : Option WebhookContactProfile
deriving DecidableEq

/-- Go `MessageStatusData` (message_delivered / message_read / message_replied). -/
structure MessageStatusData where
  MessageID : String
  From : String
  To : String
  Status : String
  Timestamp : String
  ErrorCode : String
  ErrorMessage : String
deriving DecidableEq

/-- Go `ContactEventData` (contact_created / contact_updated).  The Go field
`Changes map[string]interface{}` is a list of key/generic-value pairs. -/
structure ContactEventData where
  ContactID : String
  WhatsappNumber : String
  FirstName : String
  LastName : String
  FullName : String
  Email : String
  Tags : List String
  CustomParams : List WebhookCustomParam
  Source : String
  Timestamp : String
  Changes : List (String × Json)

/-- Go `ChatbotEventData` (chatbot_started / chatbot_stopped). -/
structure ChatbotEventData where
  ChatbotID : String
  ChatbotName : String
  WhatsappNumber : String
  SessionID : String
  Status : String
  Timestamp : String
  Reason : String
deriving DecidableEq

/-- Go `ChatStatusEventData` (chat_status_changed). -/
structure ChatStatusEventData where
  WhatsappNumber : String
  OldStatus : String
  NewStatus : String
  AssignedTo : String
  AssignedBy : String
  Tags : List String
  Notes : String
  Timestamp : String
deriving DecidableEq

/-! Zero values (Go zero structs, the starting point of every decode). -/

def zeroContactProfile : WebhookContactProfile := ⟨"", ""⟩

def zeroCustomParam : WebhookCustomParam := ⟨"", ""⟩

def zeroPhoneNumber : WebhookPhoneNumber := ⟨"", ""⟩

def zeroEmail : WebhookEmail := ⟨"", ""⟩

def zeroURL : WebhookURL := ⟨"", ""⟩

def zeroAddress : WebhookAddress := ⟨"", "", "", "", "", "", ""⟩

def zeroButtonReply : WebhookButtonReply := ⟨"", ""⟩

def zeroListReply : WebhookListReply := ⟨"", "", ""⟩

def zeroMediaInfo : WebhookMediaInfo := ⟨"", "", "", 0, "", ""⟩

def zeroLocationInfo : WebhookLocationInfo := ⟨0, 0, "", ""⟩

def zeroContactInfo : WebhookContactInfo := ⟨"", [], [], [], [], "", ""⟩

def zeroInteractiveInfo : WebhookInteractiveInfo := ⟨"", none, none⟩

def zeroMessageReceivedData : MessageReceivedData :=
  ⟨"", "", "", "", "", none, none, none, none, "", none⟩

def zeroMessageSentData : MessageSentData :=
  ⟨"", "", "", "", "", "", "", "", "", none⟩

def zeroMessageStatusData : MessageStatusData := ⟨"", "", "", "", "", "", ""⟩

def zeroContactEventData : ContactEventData :=
  ⟨"", "", "", "", "", "", [], [], "", "", []⟩

def zeroChatbotEventData : ChatbotEventData := ⟨"", "", "", "", "", "", ""⟩

def zeroChatStatusEventData : ChatStatusEventData := ⟨"", "", "", "", "", [], "", ""⟩

/-! Decoders: `json.Unmarshal` into each struct. -/

def decodeContactProfile : WebhookContactProfile → Json → Except String WebhookContactProfile :=
  decodeStruct [
    ("name", fun c v => (asStrInto c.Name v).map (fun s => {c with Name := s})),
    ("avatar", fun c v => (asStrInto c.Avatar v).map (fun s => {c with Avatar := s}))]

def decodeCustomParam : WebhookCustomParam → Json → Except String WebhookCustomParam :=
  decodeStruct [
    ("name", fun c v => (asStrInto c.Name v).map (fun s => {c with Name := s})),
    ("value", fun c v => (asStrInto c.Value v).map (fun s => {c with Value := s}))]

def decodePhoneNumber : WebhookPhoneNumber → Json → Except String WebhookPhoneNumber :=
  decodeStruct [
    ("phone", fun c v => (asStrInto c.Phone v).map (fun s => {c with Phone := s})),
    ("type", fun c v => (asStrInto c.Type' v).map (fun s => {c with Type' := s}))]

def decodeEmail : WebhookEmail → Json → Except String WebhookEmail :=
  decodeStruct [
    ("email", fun c v => (asStrInto c.Email v).map (fun s => {c with Email := s})),
    ("type", fun c v => (asStrInto c.Type' v).map (fun s => {c with Type' := s}))]

def decodeURLInfo : WebhookURL → Json → Except String WebhookURL :=
  decodeStruct [
    ("url", fun c v => (asStrInto c.URL v).map (fun s => {c with URL := s})),
    ("type", fun c v => (asStrInto c.Type' v).map (fun s => {c with Type' := s}))]

def decodeAddress : WebhookAddress → Json → Except String WebhookAddress :=
  decodeStruct [
    ("street", fun c v => (asStrInto c.Street v).map (fun s => {c with Street := s})),
    ("city", fun c v => (asStrInto c.City v).map (fun s => {c with City := s})),
    ("state", fun c v => (asStrInto c.State v).map (fun s => {c with State := s})),
    ("zip", fun c v => (asStrInto c.Zip v).map (fun s => {c with Zip := s})),
    ("country", fun c v => (asStrInto c.Country v).map (fun s => {c with Country := s})),
    ("countryCode", fun c v => (asStrInto c.CountryCode v).map (fun s => {c with CountryCode := s})),
    ("type", fun c v => (asStrInto c.Type' v).map (fun s => {c with Type' := s}))]

def decodeButtonReply : WebhookButtonReply → Json → Except String WebhookButtonReply :=
  decodeStruct [
    ("id", fun c v => (asStrInto c.ID v).map (fun s => {c with ID := s})),
    ("title", fun c v => (asStrInto c.Title v).map (fun s => {c with Title := s}))]

def decodeListReply : WebhookListReply → Json → Except String WebhookListReply :=
  decodeStruct [
    ("id", fun c v => (asStrInto c.ID v).map (fun s => {c with ID := s})),
    ("title", fun c v => (asStrInto c.Title v).map (fun s => {c with Title := s})),
    ("description", fun c v => (asStrInto c.Description v).map (fun s => {c with Description := s}))]

def decodeMediaInfo : WebhookMediaInfo → Json → Except String WebhookMediaInfo :=
  decodeStruct [
    ("id", fun c v => (asStrInto c.ID v).map (fun s => {c with ID := s})),
    ("fileName", fun c v => (asStrInto c.FileName v).map (fun s => {c with FileName := s})),
    ("mimeType", fun c v => (asStrInto c.MimeType v).map (fun s => {c with MimeType := s})),
    ("size", fun c v => (asIntInto c.Size v).map (fun n => {c with Size := n})),
    ("url", fun c v => (asStrInto c.URL v).map (fun s => {c with URL := s})),
    ("caption", fun c v => (asStrInto c.Caption v).map (fun s => {c with Caption := s}))]

def decodeLocationInfo : WebhookLocationInfo → Json → Except String WebhookLocationInfo :=
  decodeStruct [
    ("latitude", fun c v => (asRatInto c.Latitude v).map (fun q => {c with Latitude := q})),
    ("longitude", fun c v => (asRatInto c.Longitude v).map (fun q => {c with Longitude := q})),
    ("name", fun c v => (asStrInto c.Name v).map (fun s => {c with Name := s})),
    ("address", fun c v => (asStrInto c.Address v).map (fun s => {c with Address := s}))]

def decodeContactInfo : WebhookContactInfo → Json → Except String WebhookContactInfo :=
  decodeStruct [
    ("name", fun c v => (asStrInto c.Name v).map (fun s => {c with Name := s})),
    ("phoneNumbers", fun c v => (asListInto (decodePhoneNumber zeroPhoneNumber) c.PhoneNumbers v).map
      (fun xs => {c with PhoneNumbers := xs})),
    ("emails", fun c v => (asListInto (decodeEmail zeroEmail) c.Emails v).map
      (fun xs => {c with Emails := xs})),
    ("urls", fun c v => (asListInto (decodeURLInfo zeroURL) c.URLs v).map
      (fun xs => {c with URLs := xs})),
    ("addresses", fun c v => (asListInto (decodeAddress zeroAddress) c.Addresses v).map
      (fun xs => {c with Addresses := xs})),
    ("organization", fun c v => (asStrInto c.Organization v).map (fun s => {c with Organization := s})),
    ("birthday", fun c v => (asStrInto c.Birthday v).map (fun s => {c with Birthday := s}))]

def decodeInteractiveInfo : WebhookInteractiveInfo → Json → Except String WebhookInteractiveInfo :=
  decodeStruct [
    ("type", fun c v => (asStrInto c.Type' v).map (fun s => {c with Type' := s})),
    ("buttonReply", fun c v => (asOptInto decodeButtonReply zeroButtonReply c.ButtonReply v).map
      (fun x => {c with ButtonReply := x})),
    ("listReply", fun c v => (asOptInto decodeListReply zeroListReply c.ListReply v).map
      (fun x => {c with ListReply := x}))]

def decodeMessageReceivedData : MessageReceivedData → Json → Except String MessageReceivedData :=
  decodeStruct [
    ("messageId", fun c v => (asStrInto c.MessageID v).map (fun s => {c with MessageID := s})),
    ("from", fun c v => (asStrInto c.From v).map (fun s => {c with From := s})),
    ("to", fun c v => (asStrInto c.To v).map (fun s => {c with To := s})),
    ("messageType", fun c v => (asStrInto c.MessageType v).map (fun s => {c with MessageType := s})),
    ("text", fun c v => (asStrInto c.Text v).map (fun s => {c with Text := s})),
    ("media", fun c v => (asOptInto decodeMediaInfo zeroMediaInfo c.Media v).map
      (fun x => {c with Media := x})),
    ("location", fun c v => (asOptInto decodeLocationInfo zeroLocationInfo c.Location v).map
      (fun x => {c with Location := x})),
    ("contact", fun c v => (asOptInto decodeContactInfo zeroContactInfo c.Contact v).map
      (fun x => {c with Contact := x})),
    ("interactive", fun c v => (asOptInto decodeInteractiveInfo zeroInteractiveInfo c.Interactive v).map
      (fun x => {c with Interactive := x})),
    ("timestamp", fun c v => (asStrInto c.Timestamp v).map (fun s => {c with Timestamp := s})),
    ("contactProfile", fun c v => (asOptInto decodeContactProfile zeroContactProfile c.ContactProfile v).map
      (fun x => {c with ContactProfile := x}))]

def decodeMessageSentData : MessageSentData → Json → Except String MessageSentData :=
  decodeStruct [
    ("messageId", fun c v => (asStrInto c.MessageID v).map (fun s => {c with MessageID := s})),
    ("from", fun c v => (asStrInto c.From v).map (fun s => {c with From := s})),
    ("to", fun c v => (asStrInto c.To v).map (fun s => {c with To := s})),
    ("messageType", fun c v => (asStrInto c.MessageType v).map (fun s => {c with MessageType := s})),
    ("templateName", fun c v => (asStrInto c.TemplateName v).map (fun s => {c with TemplateName := s})),
    ("status", fun c v => (asStrInto c.Status v).map (fun s => {c with Status := s})),
    ("timestamp", fun c v => (asStrInto c.Timestamp v).map (fun s => {c with Timestamp := s})),
    ("errorCode", fun c v => (asStrInto c.ErrorCode v).map (fun s => {c with ErrorCode := s})),
    ("errorMessage", fun c v => (asStrInto c.ErrorMessage v).map (fun s => {c with ErrorMessage := s})),
    ("contactProfile", fun c v => (asOptInto decodeContactProfile zeroContactProfile c.ContactProfile v).map
      (fun x => {c with ContactProfile := x}))]

def decodeMessageStatusData : MessageStatusData → Json → Except String MessageStatusData :=
  decodeStruct [
    ("messageId", fun c v => (asStrInto c.MessageID v).map (fun s => {c with MessageID := s})),
    ("from", fun c v => (asStrInto c.From v).map (fun s => {c with From := s})),
    ("to", fun c v => (asStrInto c.To v).map (fun s => {c with To := s})),
    ("status", fun c v => (asStrInto c.Status v).map (fun s => {c with Status := s})),
    ("timestamp", fun c v => (asStrInto c.Timestamp v).map (fun s => {c with Timestamp := s})),
    ("errorCode", fun c v => (asStrInto c.ErrorCode v).map (fun s => {c with ErrorCode := s})),
    ("errorMessage", fun c v => (asStrInto c.ErrorMessage v).map (fun s => {c with ErrorMessage := s}))]

def decodeContactEventData : ContactEventData → Json → Except String ContactEventData :=
  decodeStruct [
    ("contactId", fun c v => (asStrInto c.ContactID v).map (fun s => {c with ContactID := s})),
    ("whatsappNumber", fun c v => (asStrInto c.WhatsappNumber v).map (fun s => {c with WhatsappNumber := s})),
    ("firstName", fun c v => (asStrInto c.FirstName v).map (fun s => {c with FirstName := s})),
    ("lastName", fun c v => (asStrInto c.LastName v).map (fun s => {c with LastName := s})),
    ("fullName", fun c v => (asStrInto c.FullName v).map (fun s => {c with FullName := s})),
    ("email", fun c v => (asStrInto c.Email v).map (fun s => {c with Email := s})),
    ("tags", fun c v => (asListInto (asStrInto "") c.Tags v).map (fun xs => {c with Tags := xs})),
    ("customParams", fun c v => (asListInto (decodeCustomParam zeroCustomParam) c.CustomParams v).map
      (fun xs => {c with CustomParams := xs})),
    ("source", fun c v => (asStrInto c.Source v).map (fun s => {c with Source := s})),
    ("timestamp", fun c v => (asStrInto c.Timestamp v).map (fun s => {c with Timestamp := s})),
    ("changes", fun c v => (asMapInto c.Changes v).map (fun fs => {c with Changes := fs}))]

def decodeChatbotEventData : ChatbotEventData → Json → Except String ChatbotEventData :=
  decodeStruct [
    ("chatbotId", fun c v => (asStrInto c.ChatbotID v).map (fun s => {c with ChatbotID := s})),
    ("chatbotName", fun c v => (asStrInto c.ChatbotName v).map (fun s => {c with ChatbotName := s})),
    ("whatsappNumber", fun c v => (asStrInto c.WhatsappNumber v).map (fun s => {c with WhatsappNumber := s})),
    ("sessionId", fun c v => (asStrInto c.SessionID v).map (fun s => {c with SessionID := s})),
    ("status", fun c v => (asStrInto c.Status v).map (fun s => {c with Status := s})),
    ("timestamp", fun c v => (asStrInto c.Timestamp v).map (fun s => {c with Timestamp := s})),
    ("reason", fun c v => (asStrInto c.Reason v).map (fun s => {c with Reason := s}))]

def decodeChatStatusEventData : ChatStatusEventData → Json → Except String ChatStatusEventData :=
  decodeStruct [
    ("whatsappNumber", fun c v => (asStrInto c.WhatsappNumber v).map (fun s => {c with WhatsappNumber := s})),
    ("oldStatus", fun c v => (asStrInto c.OldStatus v).map (fun s => {c with OldStatus := s})),
    ("newStatus", fun c v => (asStrInto c.NewStatus v).map (fun s => {c with NewStatus := s})),
    ("assignedTo", fun c v => (asStrInto c.AssignedTo v).map (fun s => {c with AssignedTo := s})),
    ("assignedBy", fun c v => (asStrInto c.AssignedBy v).map (fun s => {c with AssignedBy := s})),
    ("tags", fun c v => (asListInto (asStrInto "") c.Tags v).map (fun xs => {c with Tags := xs})),
    ("notes", fun c v => (asStrInto c.Notes v).map (fun s => {c with Notes := s})),
    ("timestamp", fun c v => (asStrInto c.Timestamp v).map (fun s => {c with Timestamp := s}))]

/-! Encoders: `json.Marshal` of each struct, fields in declaration order. -/

/-- The concrete payload variants that `parseEventData` can store in
`event.Data`. -/
inductive TypedData where
  | msgReceived (d : MessageReceivedData)
  | msgSent (d : MessageSentData)
  | msgStatus (d : MessageStatusData)
  | contactEvent (d : ContactEventData)
  | chatbotEvent (d : ChatbotEventData)
  | chatStatusEvent (d : ChatStatusEventData)

/-- The `interface{}` data of an event after `parseEventData`. -/
inductive EventData where
  | generic (j : Json)
  | typed (d : TypedData)

/-- Go `WebhookEvent` envelope after the generic envelope decode (`data` still
the raw unmarshalled value; a JSON `null` or absent `data` is `Json.null`,
Go's nil interface). -/
structure RawWebhookEvent where
  ID : String
  Type' : String
  Timestamp : String
  Data : Json
  Source : String
  Version : String

/-- Go `WebhookEvent` after `parseEventData`. -/
structure WebhookEvent where
  ID : String
  Type' : String
  Timestamp : String
  Data : EventData
  Source : String
  Version : String

def zeroRawEvent : RawWebhookEvent := ⟨"", "", "", .null, "", ""⟩

/-- The envelope fields (`id`, `type`, `timestamp`, `data`, `source`,
`version`); `data` unmarshals into `interface{}` (any JSON value accepted,
stored as is). -/
def decodeEnvelope : RawWebhookEvent → Json → Except String RawWebhookEvent :=
  decodeStruct [
    ("id", fun c v => (asStrInto c.ID v).map (fun s => {c with ID := s})),
    ("type", fun c v => (asStrInto c.Type' v).map (fun s => {c with Type' := s})),
    ("timestamp", fun c v => (asStrInto c.Timestamp v).map (fun s => {c with Timestamp := s})),
    ("data", fun c v => .ok {c with Data := v}),
    ("source", fun c v => (asStrInto c.Source v).map (fun s => {c with Source := s})),
    ("version", fun c v => (asStrInto c.Version v).map (fun s => {c with Version := s}))]

/-- Copy the envelope fields, attaching a (typed or generic) data value. -/
def mkEvent (raw : RawWebhookEvent) (d : EventData) : WebhookEvent :=
  ⟨raw.ID, raw.Type', raw.Timestamp, d, raw.Source, raw.Version⟩

/-- Go `parseEventData`: if `event.Data == nil` return unchanged; otherwise
re-marshal the generic value (the identity on an already-parsed value) and
unmarshal it into the struct selected by the switch on `event.Type`; a type
not in the switch leaves the generic value in place with no error. -/
def parseEventData (raw : RawWebhookEvent) : Except String WebhookEvent :=
  match raw.Data with
  | .null => .ok (mkEvent raw (.generic .null))
  | _ =>
    if raw.Type' = MessageReceived ∨ raw.Type' = NewContactMessage then
      (decodeMessageReceivedData zeroMessageReceivedData raw.Data).map
        (fun d => mkEvent raw (.typed (.msgReceived d)))
    else if raw.Type' = SessionMessageSent ∨ raw.Type' = TemplateMessageSent ∨
        raw.Type' = TemplateMessageFailed then
      (decodeMessageSentData zeroMessageSentData raw.Data).map
        (fun d => mkEvent raw (.typed (.msgSent d)))
    else if raw.Type' = MessageDelivered ∨ raw.Type' = MessageRead ∨
        raw.Type' = MessageReplied then
      (decodeMessageStatusData zeroMessageStatusData raw.Data).map
        (fun d => mkEvent raw (.typed (.msgStatus d)))
    else if raw.Type' = ContactCreated ∨ raw.Type' = ContactUpdated then
      (decodeContactEventData zeroContactEventData raw.Data).map
        (fun d => mkEvent raw (.typed (.contactEvent d)))
    else if raw.Type' = ChatbotStarted ∨ raw.Type' = ChatbotStopped then
      (decodeChatbotEventData zeroChatbotEventData raw.Data).map
        (fun d => mkEvent raw (.typed (.chatbotEvent d)))
    else if raw.Type' = ChatStatusChanged then
      (decodeChatStatusEventData zeroChatStatusEventData raw.Data).map
        (fun d => mkEvent raw (.typed (.chatStatusEvent d)))
    else .ok (mkEvent raw (.generic raw.Data))

/-- Go `ParseWebhookEvent`: unmarshal the envelope, then resolve the typed
payload.  The input is the payload after JSON text parsing (`none` = the
bytes are not valid JSON). -/
def ParseWebhookEvent (payload : Option Json) : Except String WebhookEvent :=
  match payload with
  | none => .error "error parsing webhook event: invalid JSON"
  | some j =>
    match decodeEnvelope zeroRawEvent j with
    | .error e => .error ("error parsing webhook event: " ++ e)
    | .ok raw =>
      match parseEventData raw with
      | .error e => .error ("error parsing event data: " ++ e)
      | .ok ev => .ok ev

/-! Spec-side dispatch table (§3 of the spec / claim C5). -/

/-- The six concrete payload shapes of the dispatch table. -/
inductive DataShape where
  | receivedShape
  | sentShape
  | statusShape
  | contactShape
  | chatbotShape
  | chatStatusShape
deriving DecidableEq

/-- The fixed event-type → payload-shape dispatch table exactly as the
specification lists it. -/
def dispatchTable (t : String) : Option DataShape :=
  if t = "message_received" ∨ t = "new_contact_message" then some .receivedShape
  else if t = "session_message_sent" ∨ t = "template_message_sent" ∨
      t = "template_message_failed" then some .sentShape
  else if t = "message_delivered" ∨ t = "message_read" ∨ t = "message_replied" then
    some .statusShape
  else if t = "contact_created" ∨ t = "contact_updated" then some .contactShape
  else if t = "chatbot_started" ∨ t = "chatbot_stopped" then some .chatbotShape
  else if t = "chat_status_changed" then some .chatStatusShape
  else none

/-- Decode a generic value into the payload of a given shape. -/
def decodeByShape : DataShape → Json → Except String TypedData
  | .receivedShape, j => (decodeMessageReceivedData zeroMessageReceivedData j).map .msgReceived
  | .sentShape, j => (decodeMessageSentData zeroMessageSentData j).map .msgSent
  | .statusShape, j => (decodeMessageStatusData zeroMessageStatusData j).map .msgStatus
  | .contactShape, j => (decodeContactEventData zeroContactEventData j).map .contactEvent
  | .chatbotShape, j => (decodeChatbotEventData zeroChatbotEventData j).map .chatbotEvent
  | .chatStatusShape, j => (decodeChatStatusEventData zeroChatStatusEventData j).map .chatStatusEvent

structure RespBody where
  text : String
  json : Option Json

/-- Result of one `httpClient.Do` call. -/
inductive TransportResult where
  | transportError (e : String)
  | response (status : Int) (body : RespBody)

/-- How the retry loop ends. -/
inductive LoopOutcome where
  | ctxCancelled
  | networkError (lastErr : String)
  | finalResponse (status : Int) (body : RespBody)

/-- Go `resp.StatusCode < 500 && resp.StatusCode != 429` — the condition under
which the loop stops retrying and breaks with the response. -/
def nonRetryableStatus (st : Int) : Bool :=
  decide (st < 500) && decide (st ≠ 429)

/-- Trace of one run of the retry loop. -/
structure LoopTrace where
  outcome : LoopOutcome
  calls : Nat
  waits : List Nat

/-- The retry loop of `DoRequest`, starting at attempt number `attempt` with
`remaining` further attempts allowed after this one (the Go loop runs
`attempt` from 0 to `retryCount`, so `attempt + remaining = retryCount`
throughout).  Before every attempt except the first the loop waits
`attempt` seconds, returning `ctx.Err()` if the cancellation signal fires
during the wait.  A transport error on the last attempt returns a
`NetworkError` carrying it; a transport error earlier sets `lastErr` and
continues.  A response breaks out immediately when `nonRetryableStatus`,
and on the last attempt breaks out with the (retryable) response; the
response then falls through to status-code handling.  `calls` counts
`httpClient.Do` invocations and `waits` records the completed backoff
waits, in seconds. -/
def retryAttempts (cancel : Nat → Bool) (backend : Nat → TransportResult) :
    Nat → Nat → LoopTrace
  | attempt, remaining =>
    if attempt > 0 && cancel attempt then ⟨.ctxCancelled, 0, []⟩
    else
      let waitsHere : List Nat := if attempt > 0 then [attempt] else []
      match backend attempt with
      | .transportError e =>
        match remaining with
        | 0 => ⟨.networkError e, 1, waitsHere⟩
        | r + 1 =>
          let t := retryAttempts cancel backend (attempt + 1) r
          ⟨t.outcome, t.calls + 1, waitsHere ++ t.waits⟩
      | .response st body =>
        if nonRetryableStatus st then ⟨.finalResponse st body, 1, waitsHere⟩
        else
          match remaining with
          | 0 => ⟨.finalResponse st body, 1, waitsHere⟩
          | r + 1 =>
            let t := retryAttempts cancel backend (attempt + 1) r
            ⟨t.outcome, t.calls + 1, waitsHere ++ t.waits⟩

/-- The whole retry loop of `DoRequest` (`for attempt := 0; attempt <=
retryCount; attempt++`). -/
def doRequestLoop (cancel : Nat → Bool) (backend : Nat → TransportResult)
    (retryCount : Nat) : LoopTrace :=
  retryAttempts cancel backend 0 retryCount

/-! ### Response handling (the tail of `Client.DoRequest`) -/

/-- Go `json.Unmarshal(respBody, &apiError)` for the anonymous struct
`{Error string "error"; Message string "message"}`: `none` when the
unmarshal fails, otherwise the two fields. -/
def decodeApiErrorFields (b : RespBody) : Option (String × String) :=
  match b.json with
  | none => none
  | some j =>
    match decodeStruct [
      ("error", fun (c : String × String) v => (asStrInto c.1 v).map (fun s => (s, c.2))),
      ("message", fun (c : String × String) v => (asStrInto c.2 v).map (fun s => (c.1, s)))]
      ("", "") j with
    | .error _ => none
    | .ok em => some em

/-- Result of `DoRequest`'s response handling. -/
inductive RespOutcome where
  | success
  | apiError (e : WATIError)
  | decodeError (msg : String)

/-- Status-code handling of the final response: for status ≥ 400 build the
classified error from the `error` field, else the `message` field, else the
full raw body; for status < 400 decode the body into the result target (when
one was supplied), a failure being a plain unmarshalling error, not a
`WATIError`. -/
def handleResponse (statusCode : Int) (b : RespBody)
    (target : Option (Json → Except String Unit)) : RespOutcome :=
  if statusCode ≥ 400 then
    match decodeApiErrorFields b with
    | some (e, m) =>
      if e ≠ "" then .apiError (NewWATIError statusCode e)
      else if m ≠ "" then .apiError (NewWATIError statusCode m)
      else .apiError (NewWATIError statusCode b.text)
    | none => .apiError (NewWATIError statusCode b.text)
  else
    match target with
    | none => .success
    | some dec =>
      match b.json with
      | none => .decodeError "error unmarshaling response"
      | some j =>
        match dec j with
        | .ok _ => .success
        | .error e => .decodeError ("error unmarshaling response: " ++ e)

/-- Outcome of `c.rateLimiter.Wait(ctx)`. -/
inductive LimiterResult where
  | token
  | cancelled (e : String)

/-- Overall outcome of `DoRequest`. -/
inductive DoROutcome where
  | rateLimiterError (e : String)
  | ctxCancelled
  | networkError (op : String) (lastErr : String)
  | success
  | apiError (e : WATIError)
  | decodeError (msg : String)

/-- Trace of one `DoRequest` call. -/
structure DoRequestTrace where
  tokenAcquisitions : Nat
  calls : Nat
  waits : List Nat
  outcome : DoROutcome

/-- Go `Client.DoRequest`: acquire a rate-limiter token (once, before the
loop), run the retry loop, then handle the final response.  Request-body
marshalling and `http.NewRequestWithContext` failures, which precede the
limiter call, are not modelled — no claim concerns them.
`tokenAcquisitions` counts calls to `rateLimiter.Wait`. -/
def DoRequest (limiter : LimiterResult) (cancel : Nat → Bool)
    (backend : Nat → TransportResult) (retryCount : Nat) (method endpoint : String)
    (target : Option (Json → Except String Unit)) : DoRequestTrace :=
  match limiter with
  | .cancelled e => ⟨1, 0, [], .rateLimiterError ("rate limiter error: " ++ e)⟩
  | .token =>
    let t := doRequestLoop cancel backend retryCount
    let out : DoROutcome :=
      match t.outcome with
      | .ctxCancelled => .ctxCancelled
      | .networkError e => .networkError (method ++ " " ++ endpoint) e
      | .finalResponse st b =>
        match handleResponse st b target with
        | .success => .success
        | .apiError e => .apiError e
        | .decodeError m => .decodeError m
    ⟨1, t.calls, t.waits, out⟩

/-! ## Signature validation (webhooks/types.go `ValidateSignature`)

Byte strings are lists of naturals below 256.  SHA-256 and HMAC (Go's
`crypto/sha256`, `crypto/hmac`) are spelled out; `hex.EncodeToString`
produces the ASCII bytes of the lowercase hex digest, and `hmac.Equal` of
two byte slices is their equality. -/

def u32 (x : Nat) : Nat := x % 4294967296

def rotr (n x : Nat) : Nat := u32 ((x >>> n) ||| (x <<< (32 - n)))

def shaCh (x y z : Nat) : Nat := (x &&& y) ^^^ ((x ^^^ 0xffffffff) &&& z)

def shaMaj (x y z : Nat) : Nat := (x &&& y) ^^^ (x &&& z) ^^^ (y &&& z)

def bigSigma0 (x : Nat) : Nat := rotr 2 x ^^^ rotr 13 x ^^^ rotr 22 x

def bigSigma1 (x : Nat) : Nat := rotr 6 x ^^^ rotr 11 x ^^^ rotr 25 x

def smallSigma0 (x : Nat) : Nat := rotr 7 x ^^^ rotr 18 x ^^^ (x >>> 3)

def smallSigma1 (x : Nat) : Nat := rotr 17 x ^^^ rotr 19 x ^^^ (x >>> 10)

/-- The 64 SHA-256 round constants. -/
def shaK : List Nat :=
  [1116352408, 1899447441, 3049323471, 3921009573, 961987163, 1508970993,
   2453635748, 2870763221, 3624381080, 310598401, 607225278, 1426881987,
   1925078388, 2162078206, 2614888103, 3248222580, 3835390401, 4022224774,
   264347078, 604807628, 770255983, 1249150122, 1555081692, 1996064986,
   2554220882, 2821834349, 2952996808, 3210313671, 3336571891, 3584528711,
   113926993, 338241895, 666307205, 773529912, 1294757372, 1396182291,
   1695183700, 1986661051, 2177026350, 2456956037, 2730485921, 2820302411,
   3259730800, 3345764771, 3516065817, 3600352804, 4094571909, 275423344,
   430227734, 506948616, 659060556, 883997877, 958139571, 1322822218,
   1537002063, 1747873779, 1955562222, 2024104815, 2227730452, 2361852424,
   2428436474, 2756734187, 3204031479, 3329325298]

/-- Big-endian 32-bit words of a block of bytes. -/
def toWords32 : List Nat → List Nat
  | b0 :: b1 :: b2 :: b3 :: rest =>
    ((b0 <<< 24) + (b1 <<< 16) + (b2 <<< 8) + b3) :: toWords32 rest
  | _ => []

/-- Extend the 16-word schedule by `n` further words. -/
def extendSchedule : List Nat → Nat → List Nat
  | w, 0 => w
  | w, n + 1 =>
    extendSchedule
      (w ++ [u32 (smallSigma1 (w.getD (w.length - 2) 0) + w.getD (w.length - 7) 0 +
        smallSigma0 (w.getD (w.length - 15) 0) + w.getD (w.length - 16) 0)]) n

/-- The eight 32-bit state words of SHA-256. -/
structure Hash8 where
  a : Nat
  b : Nat
  c : Nat
  d : Nat
  e : Nat
  f : Nat
  g : Nat
  h : Nat

def shaRound (st : Hash8) (ki wi : Nat) : Hash8 :=
  let t1 := u32 (st.h + bigSigma1 st.e + shaCh st.e st.f st.g + ki + wi)
  let t2 := u32 (bigSigma0 st.a + shaMaj st.a st.b st.c)
  ⟨u32 (t1 + t2), st.a, st.b, st.c, u32 (st.d + t1), st.e, st.f, st.g⟩

def compressBlock (st : Hash8) (block : List Nat) : Hash8 :=
  let w := extendSchedule (toWords32 block) 48
  let fin := (List.range 64).foldl (fun s i => shaRound s (shaK.getD i 0) (w.getD i 0)) st
  ⟨u32 (st.a + fin.a), u32 (st.b + fin.b), u32 (st.c + fin.c), u32 (st.d + fin.d),
   u32 (st.e + fin.e), u32 (st.f + fin.f), u32 (st.g + fin.g), u32 (st.h + fin.h)⟩

/-- Big-endian 8-byte encoding of the bit length. -/
def be64 (n : Nat) : List Nat :=
  [(n >>> 56) % 256, (n >>> 48) % 256, (n >>> 40) % 256, (n >>> 32) % 256,
   (n >>> 24) % 256, (n >>> 16) % 256, (n >>> 8) % 256, n % 256]

/-- SHA-256 padding: a 0x80 byte, zeros to 56 mod 64, the bit length. -/
def padMessage (msg : List Nat) : List Nat :=
  msg ++ 0x80 :: List.replicate ((55 + 64 - msg.length % 64) % 64) 0 ++ be64 (8 * msg.length)

/-- Blocks of 64 bytes of a padded message. -/
def chunks64 : List Nat → List (List Nat)
  | [] => []
  | x :: xs => ((x :: xs).take 64) :: chunks64 ((x :: xs).drop 64)
termination_by l => l.length
decreasing_by simp; omega

def initH : Hash8 :=
  ⟨1779033703, 3144134277, 1013904242, 2773480762, 1359893119, 2600822924, 528734635, 1541459225⟩

def wordBytes (x : Nat) : List Nat :=
  [(x >>> 24) % 256, (x >>> 16) % 256, (x >>> 8) % 256, x % 256]

/-- SHA-256 of a byte string. -/
def sha256 (msg : List Nat) : List Nat :=
  let st := (chunks64 (padMessage msg)).foldl compressBlock initH
  wordBytes st.a ++ wordBytes st.b ++ wordBytes st.c ++ wordBytes st.d ++
    wordBytes st.e ++ wordBytes st.f ++ wordBytes st.g ++ wordBytes st.h

/-- HMAC-SHA256 (`hmac.New(sha256.New, key)` then `Write`/`Sum`): block size
64; a key longer than the block is first hashed; inner pad 0x36, outer pad
0x5c. -/
def hmacSha256 (key msg : List Nat) : List Nat :=
  let k0 := if 64 < key.length then sha256 key else key
  let kp := k0 ++ List.replicate (64 - k0.length) 0
  sha256 ((kp.map (fun b => b ^^^ 0x5c)) ++ sha256 ((kp.map (fun b => b ^^^ 0x36)) ++ msg))

def hexDigit (n : Nat) : Nat := if n < 10 then 48 + n else 87 + n

/-- Go `hex.EncodeToString` — ASCII bytes of the lowercase hex encoding. -/
def hexEncodeAscii (bs : List Nat) : List Nat :=
  bs.foldr (fun b acc => hexDigit (b / 16) :: hexDigit (b % 16) :: acc) []

/-- Go `ValidateSignature(payload, signature, secret)`: with an empty secret
validation always succeeds; otherwise the signature bytes are compared (in
constant time, `hmac.Equal` — functionally, equality) with the hex-encoded
HMAC-SHA256 of the payload under the secret. -/
def ValidateSignature (payload signature secret : List Nat) : Bool :=
  if secret = [] then true
  else decide (signature = hexEncodeAscii (hmacSha256 secret payload))

/-! ## Webhook server lifecycle (webhooks service `StartWebhookServer` /
`StopWebhookServer`)

The mutex-guarded server state; handlers are a map from event type to an
opaque handler identifier.  The `http.Server` calls are external: starting
the listener happens in a goroutine and cannot fail the `Start` call, while
`Shutdown`'s outcome is the oracle `shutdownErr` of `Stop`. -/

structure WebhookServerState where
  Port : Int
  Handlers : List (String × Nat)
  Secret : String
  IsRunning : Bool
deriving DecidableEq

/-- Go `StartWebhookServer(port, handlers)`: error when already running;
otherwise install the handler map when one is given (a nil map leaves the
current handlers), record the port, start serving, and set `IsRunning`.
Returns the error (if any) and the state after the call. -/
def StartWebhookServer (s : WebhookServerState) (port : Int)
    (handlers : Option (List (String × Nat))) : Option String × WebhookServerState :=
  if s.IsRunning then (some "webhook server is already running", s)
  else
    let s1 := match handlers with
      | some hm => {s with Handlers := hm}
      | none => s
    (none, {s1 with Port := port, IsRunning := true})

/-- Go `StopWebhookServer()`: error when not running; otherwise shut the
listener down — on a shutdown error the error is returned and `IsRunning`
is left unchanged (still true); on success `IsRunning` becomes false. -/
def StopWebhookServer (s : WebhookServerState) (shutdownErr : Option String) :
    Option String × WebhookServerState :=
  if !s.IsRunning then (some "webhook server is not running", s)
  else
    match shutdownErr with
    | some e => (some ("error stopping webhook server: " ++ e), s)
    | none => (none, {s with IsRunning := false})

/-! ## Webhook registration (webhooks service) -/

/-- The `validEvents` membership test of `WebhookRegistration.Validate`. -/
def validEventType (t : String) : Bool :=
  t == MessageReceived || t == NewContactMessage || t == SessionMessageSent ||
  t == TemplateMessageSent || t == MessageDelivered || t == MessageRead ||
  t == MessageReplied || t == TemplateMessageFailed || t == ContactCreated ||
  t == ContactUpdated || t == ChatbotStarted || t == ChatbotStopped ||
  t == ChatStatusChanged

/-- Go `WebhookRegistration{URL, Events, Secret, Description}`. -/
structure WebhookRegistration where
  URL : String
  Events : List String
  Secret : String
  Description : String
deriving DecidableEq

/-- Go `WebhookRegistration.Validate`: empty URL, empty event list, or the
first event type outside the 13 valid kinds produce an error. -/
def WebhookRegistration.Validate (r : WebhookRegistration) : Option String :=
  if r.URL = "" then some "webhook URL is required"
  else if r.Events = [] then some "at least one event type is required"
  else
    match r.Events.find? (fun e => !validEventType e) with
    | some e => some ("invalid event type: " ++ e)
    | none => none

/-- Go `Service.RegisterWebhookWithConfig`: nil config and validation failures
return before the `DoRequest` call (the oracle `doRequestResult`); the
returned flag records whether `DoRequest` was invoked. -/
def RegisterWebhookWithConfig (config : Option WebhookRegistration)
    (doRequestResult : Except String Unit) : Except String Unit × Bool :=
  match config with
  | none => (.error "webhook configuration is required", false)
  | some cfg =>
    match cfg.Validate with
    | some e => (.error ("validation error: " ++ e), false)
    | none =>
      match doRequestResult with
      | .error e => (.error ("error registering webhook: " ++ e), true)
      | .ok _ => (.ok (), true)

/-! ## Token rotation (`Client.RotateToken`, client.go) -/

/-- Go `Config` (config.go); the duration and rate-limit numbers are integers.  -/
structure Config where
  APIEndpoint : String
  Token : String
  Timeout : Int
  RetryCount : Int
  RequestsPerSecond : Int
  BurstSize : Int
  Debug : Bool
deriving DecidableEq

/-- Go `TokenResponse` (embedded `BaseResponse` flattened; `ExpiresAt` opaque). -/
structure TokenResponse where
  Result : Bool
  Message : String
  Error : String
  Token : String
  ExpiresAt : String
deriving DecidableEq

/-- Go `Client.RotateToken`: on a `DoRequest` error return it with the
configuration untouched; on success store the returned token in the
configuration and return the response. -/
def RotateToken (cfg : Config) (doRequestResult : Except String TokenResponse) :
    Except String TokenResponse × Config :=
  match doRequestResult with
  | .error e => (.error e, cfg)
  | .ok result => (.ok result, {cfg with Token := result.Token})

end Wati

namespace Wati

/-- C1: the error classification is a pure function of the status code that
matches the fixed table, and the classified error is retryable iff the code
is 429 or at least 500. -/
theorem claim_C1_classification (c : Int) (m : String) :
    (NewWATIError c m).ErrType = classifyTable c ∧
    (NewWATIError c m).Code = c ∧
    ((NewWATIError c m).IsRetryable = true ↔ (c = 429 ∨ c ≥ 500)) := by
  refine ⟨rfl, rfl, ?_⟩
  simp only [NewWATIError, WATIError.IsRetryable, Bool.or_eq_true, decide_eq_true_iff]
  tauto

end Wati

namespace Wati

theorem mapM_loop_encode {α : Type} (dec : Json → Except String α) (enc : α → Json)
    (h : ∀ x, dec (enc x) = .ok x) (xs : List α) (acc : List α) :
    List.mapM.loop dec (xs.map enc) acc = .ok (acc.reverse ++ xs) := by
  induction xs generalizing acc with
  | nil => simp [List.mapM.loop, pure, Except.pure]
  | cons x xs ih => simp [List.mapM.loop, h, ih, Bind.bind, Except.bind]

theorem mapM_encode {α : Type} (dec : Json → Except String α) (enc : α → Json)
    (h : ∀ x, dec (enc x) = .ok x) (xs : List α) :
    (xs.map enc).mapM dec = .ok xs := by
  simpa using mapM_loop_encode dec enc h xs []

end Wati

namespace Wati

end Wati

namespace Wati

theorem except_map_map {ε α β γ : Type} (e : Except ε α) (f : α → β) (g : β → γ) :
    (e.map f).map g = e.map (fun x => g (f x)) := by
  cases e <;> rfl

theorem parseEventData_unknown (raw : RawWebhookEvent) (h : dispatchTable raw.Type' = none) :
    parseEventData raw = .ok (mkEvent raw (.generic raw.Data)) := by
  unfold dispatchTable at h
  split_ifs at h with h1 h2 h3 h4 h5 h6 <;>
    rcases hx : raw.Data <;>
    simp_all [parseEventData, MessageReceived, NewContactMessage, SessionMessageSent,
      TemplateMessageSent, TemplateMessageFailed, MessageDelivered, MessageRead,
      MessageReplied, ContactCreated, ContactUpdated, ChatbotStarted, ChatbotStopped,
      ChatStatusChanged, mkEvent]

set_option maxHeartbeats 4000000 in
theorem parseEventData_known (raw : RawWebhookEvent) (shape : DataShape)
    (hd : raw.Data ≠ .null) (h : dispatchTable raw.Type' = some shape) :
    parseEventData raw = (decodeByShape shape raw.Data).map (fun td => mkEvent raw (.typed td)) := by
  unfold dispatchTable at h
  cases shape <;> rcases hx : raw.Data <;> split_ifs at h with h1 h2 h3 h4 h5 h6 <;>
    simp_all [parseEventData, decodeByShape, except_map_map, MessageReceived,
      NewContactMessage, SessionMessageSent, TemplateMessageSent, TemplateMessageFailed,
      MessageDelivered, MessageRead, MessageReplied, ContactCreated, ContactUpdated,
      ChatbotStarted, ChatbotStopped, ChatStatusChanged]

end Wati

namespace Wati

/-- C5: the decoder resolves the concrete payload shape solely from the
event-type string via the fixed dispatch table; an unrecognized type keeps
the untyped generic value with no error; a malformed outer envelope (invalid
JSON or an envelope that does not unmarshal) and a malformed inner payload
for a recognized type each yield a decoding error for the whole event, with
no partial decode. -/
theorem claim_C5_dispatch :
    (ParseWebhookEvent none = .error "error parsing webhook event: invalid JSON") ∧
    (∀ (j : Json) (e : String), decodeEnvelope zeroRawEvent j = .error e →
      ParseWebhookEvent (some j) = .error ("error parsing webhook event: " ++ e)) ∧
    (∀ raw : RawWebhookEvent, dispatchTable raw.Type' = none →
      parseEventData raw = .ok (mkEvent raw (.generic raw.Data))) ∧
    (∀ (raw : RawWebhookEvent) (shape : DataShape), raw.Data ≠ .null →
      dispatchTable raw.Type' = some shape →
      parseEventData raw = (decodeByShape shape raw.Data).map
        (fun td => mkEvent raw (.typed td))) ∧
    (∀ (j : Json) (raw : RawWebhookEvent) (e : String),
      decodeEnvelope zeroRawEvent j = .ok raw → parseEventData raw = .error e →
      ParseWebhookEvent (some j) = .error ("error parsing event data: " ++ e)) := by
  refine ⟨rfl, ?_, parseEventData_unknown, parseEventData_known, ?_⟩
  · intro j e h
    simp [ParseWebhookEvent, h]
  · intro j raw e h1 h2
    simp [ParseWebhookEvent, h1, h2]

/-- Witness for C5: each hypothesis-bearing conjunct applied at a concrete
input — a non-object payload, an unknown event type, a recognized type with
a malformed (non-object, non-null) payload, and the same malformed payload
inside a full envelope. -/
theorem claim_C5_dispatch_witness :
    (ParseWebhookEvent (some (.str "x")) =
      .error "error parsing webhook event: cannot unmarshal into struct") ∧
    (parseEventData ⟨"1", "custom_type", "ts", .str "d", "", ""⟩ =
      .ok ⟨"1", "custom_type", "ts", .generic (.str "d"), "", ""⟩) ∧
    (parseEventData ⟨"1", "message_delivered", "ts", .str "bad", "", ""⟩ =
      (decodeByShape .statusShape (.str "bad")).map
        (fun td => mkEvent ⟨"1", "message_delivered", "ts", .str "bad", "", ""⟩ (.typed td))) ∧
    (ParseWebhookEvent (some (.obj [("type", .str "message_delivered"), ("data", .str "bad")])) =
      .error "error parsing event data: cannot unmarshal into struct") := by
  refine ⟨?_, ?_, ?_, ?_⟩
  · exact claim_C5_dispatch.2.1 (.str "x") _ rfl
  · exact claim_C5_dispatch.2.2.1 ⟨"1", "custom_type", "ts", .str "d", "", ""⟩ rfl
  · exact claim_C5_dispatch.2.2.2.1 ⟨"1", "message_delivered", "ts", .str "bad", "", ""⟩
      .statusShape (by simp) rfl
  · exact claim_C5_dispatch.2.2.2.2 (.obj [("type", .str "message_delivered"), ("data", .str "bad")])
      ⟨"", "message_delivered", "", .str "bad", "", ""⟩ _ (by rfl) (by rfl)

end Wati

namespace Wati

/-- C4: `ValidateSignature` accepts exactly the hex-encoded HMAC-SHA256 of
the payload under the secret (so the round trip validates and any differing
signature — e.g. a single-byte mutation — is rejected), and with an empty
secret every payload/signature pair validates.  The constant-time property
of the comparison is a timing property; functionally the comparison is
equality, as stated by the iff. -/
theorem claim_C4_signature (p s sig : List Nat) :
    ValidateSignature p (hexEncodeAscii (hmacSha256 s p)) s = true ∧
    (ValidateSignature p sig s = true ↔ (s = [] ∨ sig = hexEncodeAscii (hmacSha256 s p))) ∧
    ValidateSignature p sig [] = true := by
  refine ⟨?_, ?_, rfl⟩
  · by_cases h : s = [] <;> simp [ValidateSignature, h]
  · by_cases h : s = [] <;> simp [ValidateSignature, h]

/-- Counterexample to C8 as stated: with the server Running, a `Stop` whose
graceful shutdown fails returns the shutdown error and leaves the server
Running — it does not transition to Stopped. -/
theorem claim_C8_counterexample :
    (StopWebhookServer ⟨8080, [], "", true⟩ (some "context deadline exceeded")).2.IsRunning
      = true ∧
    (StopWebhookServer ⟨8080, [], "", true⟩ (some "context deadline exceeded")).1 =
      some "error stopping webhook server: context deadline exceeded" :=
  ⟨rfl, rfl⟩

/-- C8 (amended): Start fails with "already running" whenever Running and
otherwise installs the provided handler map (a nil map keeps the current
handlers), records the port and transitions to Running; Stop fails with
"not running" whenever Stopped, and otherwise transitions to Stopped when
the graceful shutdown succeeds, while a shutdown failure returns that error
and leaves the server Running.  The state is the two-valued `IsRunning`
flag — no other states exist. -/
theorem claim_C8_lifecycle (s : WebhookServerState) (port : Int)
    (handlers : Option (List (String × Nat))) (shutdownErr : Option String) :
    (s.IsRunning = true → StartWebhookServer s port handlers =
      (some "webhook server is already running", s)) ∧
    (s.IsRunning = false → ∀ hm, handlers = some hm → StartWebhookServer s port handlers =
      (none, {s with Handlers := hm, Port := port, IsRunning := true})) ∧
    (s.IsRunning = false → handlers = none → StartWebhookServer s port handlers =
      (none, {s with Port := port, IsRunning := true})) ∧
    (s.IsRunning = false → StopWebhookServer s shutdownErr =
      (some "webhook server is not running", s)) ∧
    (s.IsRunning = true → StopWebhookServer s none = (none, {s with IsRunning := false})) ∧
    (s.IsRunning = true → ∀ e, shutdownErr = some e → StopWebhookServer s shutdownErr =
      (some ("error stopping webhook server: " ++ e), s)) := by
  refine ⟨?_, ?_, ?_, ?_, ?_, ?_⟩ <;> intro h
  · simp [StartWebhookServer, h]
  · intro hm hh
    subst hh
    simp [StartWebhookServer, h]
  · intro hh
    subst hh
    simp [StartWebhookServer, h]
  · simp [StopWebhookServer, h]
  · simp [StopWebhookServer, h]
  · intro e he
    subst he
    simp [StopWebhookServer, h]

/-- Witness for C8: the Stopped → Running → Stopped cycle on a concrete
state, the double-start error, and the double-stop error. -/
theorem claim_C8_lifecycle_witness :
    (StartWebhookServer ⟨0, [], "", false⟩ 8080 (some [("message_received", 1)]) =
      (none, ⟨8080, [("message_received", 1)], "", true⟩)) ∧
    (StartWebhookServer ⟨8080, [("message_received", 1)], "", true⟩ 9090 none =
      (some "webhook server is already running", ⟨8080, [("message_received", 1)], "", true⟩)) ∧
    (StopWebhookServer ⟨8080, [("message_received", 1)], "", true⟩ none =
      (none, ⟨8080, [("message_received", 1)], "", false⟩)) ∧
    (StopWebhookServer ⟨8080, [("message_received", 1)], "", false⟩ none =
      (some "webhook server is not running", ⟨8080, [("message_received", 1)], "", false⟩)) :=
  ⟨(claim_C8_lifecycle ⟨0, [], "", false⟩ 8080 (some [("message_received", 1)]) none).2.1 rfl
      [("message_received", 1)] rfl,
   (claim_C8_lifecycle ⟨8080, [("message_received", 1)], "", true⟩ 9090 none none).1 rfl,
   (claim_C8_lifecycle ⟨8080, [("message_received", 1)], "", true⟩ 0 none none).2.2.2.2.1 rfl,
   (claim_C8_lifecycle ⟨8080, [("message_received", 1)], "", false⟩ 0 none none).2.2.2.1 rfl⟩

/-- C9: a nil configuration or a configuration failing validation (empty
URL, empty event list, or an event type outside the 13 known kinds) makes
registration return a validation error with the shared request executor
never invoked. -/
theorem claim_C9_validation (cfg : WebhookRegistration) (oracle : Except String Unit) :
    (RegisterWebhookWithConfig none oracle = (.error "webhook configuration is required", false)) ∧
    (∀ e, cfg.Validate = some e →
      RegisterWebhookWithConfig (some cfg) oracle = (.error ("validation error: " ++ e), false)) ∧
    ((cfg.URL = "" ∨ cfg.Events = [] ∨ ∃ e ∈ cfg.Events, validEventType e = false) →
      (RegisterWebhookWithConfig (some cfg) oracle).2 = false ∧
      ∃ msg, (RegisterWebhookWithConfig (some cfg) oracle).1 = .error msg) := by
  refine ⟨rfl, ?_, ?_⟩
  · intro e h
    simp [RegisterWebhookWithConfig, h]
  · intro h
    have hv : cfg.Validate ≠ none := by
      intro hnone
      unfold WebhookRegistration.Validate at hnone
      split_ifs at hnone with h1 h2
      all_goals try exact Option.noConfusion hnone
      rcases h with h | h | ⟨e, he, hbad⟩
      · exact h1 h
      · exact h2 h
      · cases hf : cfg.Events.find? (fun x => !validEventType x) with
        | some x => rw [hf] at hnone; exact Option.noConfusion hnone
        | none =>
          rw [List.find?_eq_none] at hf
          exact absurd (by simp [hbad]) (hf e he)
    cases hval : cfg.Validate with
    | none => exact absurd hval hv
    | some m =>
      exact ⟨by simp [RegisterWebhookWithConfig, hval],
        ⟨"validation error: " ++ m, by simp [RegisterWebhookWithConfig, hval]⟩⟩

/-- Witness for C9: nil configuration, empty URL, empty event list, and an
unknown event type, each short-circuiting without a network call. -/
theorem claim_C9_validation_witness :
    (RegisterWebhookWithConfig none (.ok ()) =
      (.error "webhook configuration is required", false)) ∧
    (RegisterWebhookWithConfig (some ⟨"", ["message_received"], "", ""⟩) (.ok ()) =
      (.error "validation error: webhook URL is required", false)) ∧
    (RegisterWebhookWithConfig (some ⟨"https://x.example", [], "", ""⟩) (.ok ()) =
      (.error "validation error: at least one event type is required", false)) ∧
    (RegisterWebhookWithConfig (some ⟨"https://x.example", ["bogus_event"], "", ""⟩) (.ok ()) =
      (.error "validation error: invalid event type: bogus_event", false)) :=
  ⟨(claim_C9_validation ⟨"", [], "", ""⟩ (.ok ())).1,
   (claim_C9_validation ⟨"", ["message_received"], "", ""⟩ (.ok ())).2.1 _ rfl,
   (claim_C9_validation ⟨"https://x.example", [], "", ""⟩ (.ok ())).2.1 _ rfl,
   (claim_C9_validation ⟨"https://x.example", ["bogus_event"], "", ""⟩ (.ok ())).2.1 _ rfl⟩

/-- C10: `RotateToken` stores the returned token in the configuration
exactly when the call succeeds; on any executor error the error is returned
and the configuration — token included — is unchanged. -/
theorem claim_C10_rotate (cfg : Config) (r : Except String TokenResponse) :
    (∀ e, r = .error e → RotateToken cfg r = (.error e, cfg)) ∧
    (∀ res, r = .ok res → RotateToken cfg r = (.ok res, {cfg with Token := res.Token})) := by
  constructor <;> intro x h <;> subst h <;> rfl

/-- Witness for C10: a failing call leaves a concrete configuration
untouched; a successful call replaces exactly the token. -/
theorem claim_C10_rotate_witness :
    (RotateToken ⟨"https://api.example", "old-token", 30, 3, 10, 20, false⟩
      (.error "network down") =
      (.error "network down", ⟨"https://api.example", "old-token", 30, 3, 10, 20, false⟩)) ∧
    (RotateToken ⟨"https://api.example", "old-token", 30, 3, 10, 20, false⟩
      (.ok ⟨true, "", "", "new-token", "2025-01-01"⟩) =
      (.ok ⟨true, "", "", "new-token", "2025-01-01"⟩,
        ⟨"https://api.example", "new-token", 30, 3, 10, 20, false⟩)) :=
  ⟨(claim_C10_rotate ⟨"https://api.example", "old-token", 30, 3, 10, 20, false⟩
      (.error "network down")).1 "network down" rfl,
   (claim_C10_rotate ⟨"https://api.example", "old-token", 30, 3, 10, 20, false⟩
      (.ok ⟨true, "", "", "new-token", "2025-01-01"⟩)).2 ⟨true, "", "", "new-token", "2025-01-01"⟩ rfl⟩

end Wati

namespace Wati

/-- Counterexample to C3 as stated: with retries happening (two attempts
made against a backend that always answers 500), the rate limiter is still
consulted only once — a token is not acquired before every attempt. -/
theorem claim_C3_counterexample :
    (DoRequest .token (fun _ => false) (fun _ => .response 500 ⟨"", none⟩) 1
      "GET" "/x" none).calls = 2 ∧
    (DoRequest .token (fun _ => false) (fun _ => .response 500 ⟨"", none⟩) 1
      "GET" "/x" none).tokenAcquisitions = 1 := by
  constructor <;> rfl

/-- C3 (amended): the rate limiter token is acquired exactly once per
executor call, before the first attempt — retry attempts do not re-acquire;
when acquisition ends with the caller's cancellation the call fails
immediately with the wrapped rate-limiter error and no attempt is made. -/
theorem claim_C3_rate_limit (limiter : LimiterResult) (cancel : Nat → Bool)
    (backend : Nat → TransportResult) (n : Nat) (method endpoint : String)
    (target : Option (Json → Except String Unit)) :
    ((DoRequest limiter cancel backend n method endpoint target).tokenAcquisitions = 1) ∧
    (∀ e, limiter = .cancelled e →
      DoRequest limiter cancel backend n method endpoint target =
        ⟨1, 0, [], .rateLimiterError ("rate limiter error: " ++ e)⟩) := by
  constructor
  · cases limiter <;> rfl
  · intro e h
    subst h
    rfl

/-- Witness for C3 (amended): a cancelled limiter acquisition on a concrete
call fails with the rate-limiter error before any attempt. -/
theorem claim_C3_rate_limit_witness :
    DoRequest (.cancelled "context canceled") (fun _ => false)
      (fun _ => .response 200 ⟨"", none⟩) 3 "GET" "/x" none =
    ⟨1, 0, [], .rateLimiterError ("rate limiter error: " ++ "context canceled")⟩ :=
  (claim_C3_rate_limit (.cancelled "context canceled") (fun _ => false)
    (fun _ => .response 200 ⟨"", none⟩) 3 "GET" "/x" none).2 "context canceled" rfl

/-- C7: for a final response with status ≥ 400 the classified error's
message comes from the body's `error` field when non-empty, else the
`message` field when non-empty, else the full raw body, always paired with
the status code (in particular, a 400 with body
`{"result":false,"error":"invalid request"}` classifies as bad_request with
message "invalid request"); for status < 400 with a result target the body
is decoded into the target and a decode failure is an unmarshalling error,
a constructor distinct from the classified API errors. -/
theorem claim_C7_response (st : Int) (b : RespBody)
    (target : Option (Json → Except String Unit)) (dec : Json → Except String Unit) :
    (st ≥ 400 → ∀ e m, decodeApiErrorFields b = some (e, m) → e ≠ "" →
      handleResponse st b target = .apiError (NewWATIError st e)) ∧
    (st ≥ 400 → ∀ m, decodeApiErrorFields b = some ("", m) → m ≠ "" →
      handleResponse st b target = .apiError (NewWATIError st m)) ∧
    (st ≥ 400 → (decodeApiErrorFields b = none ∨ decodeApiErrorFields b = some ("", "")) →
      handleResponse st b target = .apiError (NewWATIError st b.text)) ∧
    (handleResponse 400
      ⟨"\x7b\"result\":false,\"error\":\"invalid request\"\x7d",
        some (.obj [("result", .bool false), ("error", .str "invalid request")])⟩ target =
      .apiError ⟨400, "invalid request", "bad_request"⟩) ∧
    (st < 400 → handleResponse st b none = .success) ∧
    (st < 400 → b.json = none →
      handleResponse st b (some dec) = .decodeError "error unmarshaling response") ∧
    (st < 400 → ∀ j e, b.json = some j → dec j = .error e →
      handleResponse st b (some dec) = .decodeError ("error unmarshaling response: " ++ e)) ∧
    (st < 400 → ∀ j, b.json = some j → dec j = .ok () →
      handleResponse st b (some dec) = .success) := by
  refine ⟨?_, ?_, ?_, ?_, ?_, ?_, ?_, ?_⟩
  · intro hst e m hdec hne
    simp [handleResponse, hst, hdec, hne]
  · intro hst m hdec hne
    simp [handleResponse, hst, hdec, hne]
  · intro hst hdec
    rcases hdec with hdec | hdec <;> simp [handleResponse, hst, hdec]
  · rfl
  · intro hst
    have : ¬ st ≥ 400 := by omega
    simp [handleResponse, this]
  · intro hst hj
    have : ¬ st ≥ 400 := by omega
    simp [handleResponse, this, hj]
  · intro hst j e hj hdec
    have : ¬ st ≥ 400 := by omega
    simp [handleResponse, this, hj, hdec]
  · intro hst j hj hdec
    have : ¬ st ≥ 400 := by omega
    simp [handleResponse, this, hj, hdec]

/-- Witness for C7: concrete responses exercising the error-field
preference, the message-field fallback, the raw-body fallback, and the
success/decode paths below 400. -/
theorem claim_C7_response_witness :
    (handleResponse 404 ⟨"t", some (.obj [("error", .str "nope")])⟩ none =
      .apiError (NewWATIError 404 "nope")) ∧
    (handleResponse 404 ⟨"t", some (.obj [("message", .str "gone")])⟩ none =
      .apiError (NewWATIError 404 "gone")) ∧
    (handleResponse 503 ⟨"plain text body", none⟩ none =
      .apiError (NewWATIError 503 "plain text body")) ∧
    (handleResponse 200 ⟨"ok", some (.obj [])⟩ none = .success) ∧
    (handleResponse 200 ⟨"bad json", none⟩ (some (fun _ => .ok ())) =
      .decodeError "error unmarshaling response") ∧
    (handleResponse 200 ⟨"ok", some (.obj [])⟩ (some (fun _ => .error "shape")) =
      .decodeError ("error unmarshaling response: " ++ "shape")) := by
  refine ⟨?_, ?_, ?_, ?_, ?_, ?_⟩
  · exact (claim_C7_response 404 ⟨"t", some (.obj [("error", .str "nope")])⟩ none
      (fun _ => .ok ())).1 (by omega) "nope" "" rfl (by simp)
  · exact (claim_C7_response 404 ⟨"t", some (.obj [("message", .str "gone")])⟩ none
      (fun _ => .ok ())).2.1 (by omega) "gone" rfl (by simp)
  · exact (claim_C7_response 503 ⟨"plain text body", none⟩ none
      (fun _ => .ok ())).2.2.1 (by omega) (Or.inl rfl)
  · exact (claim_C7_response 200 ⟨"ok", some (.obj [])⟩ none
      (fun _ => .ok ())).2.2.2.2.1 (by omega)
  · exact (claim_C7_response 200 ⟨"bad json", none⟩ (some (fun _ => .ok ()))
      (fun _ => .ok ())).2.2.2.2.2.1 (by omega) rfl
  · exact (claim_C7_response 200 ⟨"ok", some (.obj [])⟩ (some (fun _ => .error "shape"))
      (fun _ => .error "shape")).2.2.2.2.2.2.1 (by omega) (.obj []) "shape" rfl rfl

end Wati

namespace Wati

end Wati

namespace Wati

end Wati

namespace Wati

end Wati

namespace Wati

end Wati
